import Mathlib

/-!
Verification of the DeepSpeed declarative configuration layer
(`deepspeed/config/base.py` and `deepspeed/config/config.py`).

The Python code is shallowly embedded: Python `int`-or-`None` fields become
`Option Int`, Python exceptions become an explicit `PyError` sum carried in
`Except`, Python floor division `//` becomes `Int.fdiv` guarded by an explicit
zero-divisor check (Python raises `ZeroDivisionError`), and the CPython
attribute protocol (data descriptors on the class taking precedence over the
instance dictionary) is modelled explicitly with fuel so that descriptor loops
surface as `recursionError`, exactly as CPython raises `RecursionError`.
-/

set_option maxHeartbeats 1000000

namespace DSConfig

/-- Python values occurring in the configuration layer: ints, strings,
booleans, `None`, and the `AliasSpec` marker objects produced by `alias(...)`
in `base.py`. -/
inductive PyVal where
  | int (z : Int)
  | str (s : String)
  | bool (b : Bool)
  | pyNone
  | aliasSpec (target : String)
deriving Repr, DecidableEq

/-- Python exceptions raised by the configuration layer.  `configError`
models `ConfigError` from `base.py`; the others model the builtin Python
exceptions that the code can raise. -/
inductive PyError where
  | configError (msg : String)
  | zeroDivisionError
  | attributeError (name : String)
  | typeError (msg : String)
  | valueError (msg : String)
  | runtimeError (msg : String)
  | recursionError
deriving Repr, DecidableEq

/-- The fields of `BatchConfig` in `config.py`.  All three batch fields
default to `None` (`Option.none`).  `world_size` is written by `_resolve`
(in Python it is an attribute created at resolve time; reading it before
resolution never happens in the claims considered, and it is modelled with
default 1, the value used when no distributed context is active). -/
structure BatchConfig where
  train_batch_size : Option Int := none
  micro_batch_size : Option Int := none
  gradient_accumulation_steps : Option Int := none
  world_size : Int := 1
deriving Repr, DecidableEq

/-- Python truthiness of an int-or-None value: `None` and `0` are falsy.
This is what `all([batch, mb, gas])` in `BatchConfig._resolve` tests. -/
def truthy : Option Int → Bool
  | none => false
  | some v => v != 0

/-- Python floor division `a // b`: floor semantics (`Int.fdiv`), raising
`ZeroDivisionError` on a zero divisor. -/
def pyFloorDiv (a b : Int) : Except PyError Int :=
  if b = 0 then .error .zeroDivisionError else .ok (Int.fdiv a b)

/-- `BatchConfig._resolve` from `config.py`, with the ambient world size
passed explicitly (the code reads `torch.distributed.get_world_size()` when a
distributed context is active and uses 1 otherwise).  Reads and writes of
`train_micro_batch_size_per_gpu` forward to `micro_batch_size` through the
`ArgAlias` data descriptor, so they appear here directly on
`micro_batch_size`. -/
def BatchConfig._resolve (c : BatchConfig) (world_size : Int) :
    Except PyError BatchConfig :=
  let c' : BatchConfig := { c with world_size := world_size }
  if truthy c.train_batch_size && truthy c.micro_batch_size &&
      truthy c.gradient_accumulation_steps then
    .ok c'
  else
    match c.train_batch_size, c.micro_batch_size, c.gradient_accumulation_steps with
    | some b, some m, _ =>
      match pyFloorDiv b m with
      | .error e => .error e
      | .ok q =>
        match pyFloorDiv q world_size with
        | .error e => .error e
        | .ok g => .ok { c' with gradient_accumulation_steps := some g }
    | some b, none, some g =>
      match pyFloorDiv b world_size with
      | .error e => .error e
      | .ok q =>
        match pyFloorDiv q g with
        | .error e => .error e
        | .ok m => .ok { c' with micro_batch_size := some m }
    | none, some m, some g =>
      .ok { c' with train_batch_size := some (m * g * world_size) }
    | some b, none, none =>
      match pyFloorDiv b world_size with
      | .error e => .error e
      | .ok m =>
        .ok { c' with gradient_accumulation_steps := some (1 : Int),
                      micro_batch_size := some m }
    | none, some m, none =>
      .ok { c' with train_batch_size := some (m * world_size),
                    gradient_accumulation_steps := some (1 : Int) }
    | none, none, _ => .ok c'

/-- The validation chain of `BatchConfig.is_valid` after resolution has run:
the four `raise ConfigError` checks of `config.py`, in source order. -/
def checkResolved (c : BatchConfig) : Except PyError Bool :=
  match c.train_batch_size with
  | none => .error (.configError "train_batch_size: None must be greater than 0.")
  | some batch =>
    if batch ≤ 0 then
      .error (.configError "train_batch_size must be greater than 0.")
    else
      match c.micro_batch_size with
      | none =>
        .error (.configError "train_micro_batch_size_per_gpu: None must be greater than 0.")
      | some mb =>
        if mb ≤ 0 then
          .error (.configError "train_micro_batch_size_per_gpu must be greater than 0.")
        else
          match c.gradient_accumulation_steps with
          | none =>
            .error (.configError "gradient_accumulation_steps: None must be greater than 0.")
          | some gas =>
            if gas ≤ 0 then
              .error (.configError "gradient_accumulation_steps must be greater than 0.")
            else if batch ≠ mb * gas * c.world_size then
              .error (.configError "train_batch_size is not equal to micro_batch_per_gpu * gradient_acc_step * world_size")
            else
              .ok true

/-- `BatchConfig.is_valid` from `config.py`: run `resolve()` (which for
`BatchConfig`, whose fields are all scalars, is exactly `_resolve`), then the
validation checks.  An exception raised during resolution propagates. -/
def BatchConfig.is_valid (c : BatchConfig) (world_size : Int) : Except PyError Bool :=
  match BatchConfig._resolve c world_size with
  | .error e => .error e
  | .ok c' => checkResolved c'

/-- The invalidity condition named by the spec for a resolved batch config:
some field missing or non-positive, or the batch arithmetic inconsistent. -/
def batchInvalid (c : BatchConfig) : Prop :=
  match c.train_batch_size, c.micro_batch_size, c.gradient_accumulation_steps with
  | some b, some m, some g => b ≤ 0 ∨ m ≤ 0 ∨ g ≤ 0 ∨ b ≠ m * g * c.world_size
  | _, _, _ => True

/-- A class attribute of a `Config` subclass: either a plain (non-descriptor)
value, or an `ArgAlias` data descriptor installed by `__post_init__`
forwarding to the named target attribute. -/
inductive ClassAttr where
  | plain (v : PyVal)
  | argAlias (target : String)
deriving Repr, DecidableEq

/-- The class attribute table of a `Config` subclass. -/
abbrev ClsAttrs := List (String × ClassAttr)

/-- The instance dictionary of a `Config` object. -/
abbrev InstDict := List (String × PyVal)

/-- First binding of a key in an association list (Python dict lookup). -/
def assocLookup {α : Type} : List (String × α) → String → Option α
  | [], _ => none
  | (k, v) :: rest, key => if k = key then some v else assocLookup rest key

/-- Update the binding of a key in an association list, appending a new
binding when the key is absent (Python dict assignment, preserving insertion
order). -/
def assocSet {α : Type} : List (String × α) → String → α → List (String × α)
  | [], key, v => [(key, v)]
  | (k, w) :: rest, key, v =>
    if k = key then (k, v) :: rest else (k, w) :: assocSet rest key v

/-- Whether a class attribute is an `ArgAlias` data descriptor. -/
def isAliasAttr (cls : ClsAttrs) (name : String) : Bool :=
  match assocLookup cls name with
  | some (.argAlias _) => true
  | _ => false

/-- Fuel bound for attribute lookups; CPython's recursion limit plays the
same role for `ArgAlias.__get__` and `ArgAlias.__set__` chains. -/
def attrFuel : Nat := 64

/-- CPython `getattr` restricted to the shapes used by `base.py`: a data
descriptor (`ArgAlias`) on the class takes precedence over the instance
dictionary, which takes precedence over a plain class attribute; a missing
attribute raises `AttributeError`, and a descriptor cycle exhausts the fuel
(`RecursionError`). -/
def pyGetattrFuel (cls : ClsAttrs) (inst : InstDict) : Nat → String → Except PyError PyVal
  | 0, _ => .error .recursionError
  | fuel + 1, name =>
    match assocLookup cls name with
    | some (.argAlias tgt) => pyGetattrFuel cls inst fuel tgt
    | _ =>
      match assocLookup inst name with
      | some v => .ok v
      | none =>
        match assocLookup cls name with
        | some (.plain v) => .ok v
        | _ => .error (.attributeError name)

/-- Attribute read with the standard fuel. -/
def pyGetattr (cls : ClsAttrs) (inst : InstDict) (name : String) : Except PyError PyVal :=
  pyGetattrFuel cls inst attrFuel name

/-- CPython `setattr` restricted to the shapes used by `base.py`: an
`ArgAlias` data descriptor on the class intercepts the write and forwards it
to the target attribute (`ArgAlias.__set__`); otherwise the instance
dictionary is updated. -/
def pySetattrFuel (cls : ClsAttrs) : Nat → InstDict → String → PyVal → Except PyError InstDict
  | 0, _, _, _ => .error .recursionError
  | fuel + 1, inst, name, v =>
    match assocLookup cls name with
    | some (.argAlias tgt) => pySetattrFuel cls fuel inst tgt v
    | _ => .ok (assocSet inst name v)

/-- Attribute write with the standard fuel. -/
def pySetattr (cls : ClsAttrs) (inst : InstDict) (name : String) (v : PyVal) :
    Except PyError InstDict :=
  pySetattrFuel cls attrFuel inst name v

/-- The dataclass field declarations of a `Config` subclass, in declaration
order: field name paired with its default (`none` for a required field with
no default). -/
abbrev FieldDefs := List (String × Option PyVal)

/-- The class attribute table as the class body leaves it: every field with a
default keeps that default as a plain class attribute (for an alias field the
default is the `AliasSpec` marker object returned by `alias(...)`); fields
without defaults have no class attribute. -/
def initialCls (fields : FieldDefs) : ClsAttrs :=
  fields.filterMap (fun fd =>
    match fd.2 with
    | some d => some (fd.1, ClassAttr.plain d)
    | none => none)

/-- Keyword-argument check of the generated dataclass `__init__`: an argument
that is not a declared field raises `TypeError`. -/
def checkKwargs (fields : FieldDefs) (kwargs : InstDict) : Except PyError Unit :=
  if kwargs.all (fun kv => (fields.map Prod.fst).contains kv.1) then .ok ()
  else .error (.typeError "unexpected keyword argument")

/-- Body of the generated dataclass `__init__`: assign every declared field
in declaration order, taking the supplied keyword argument if present and the
declared default otherwise, through the full `setattr` protocol (so an
installed `ArgAlias` descriptor intercepts the write). -/
def runInit (fields : FieldDefs) (cls : ClsAttrs) (kwargs : InstDict) :
    Except PyError InstDict :=
  fields.foldlM (fun inst fd =>
    match assocLookup kwargs fd.1 with
    | some v => pySetattr cls inst fd.1 v
    | none =>
      match fd.2 with
      | some d => pySetattr cls inst fd.1 d
      | none => .error (.typeError "missing required argument")) []

/-- `AliasSpec.build` from `base.py`: check that the aliased target exists
(`hasattr`), then install an `ArgAlias` data descriptor on the class. -/
def buildAlias (cls : ClsAttrs) (inst : InstDict) (name target : String) :
    Except PyError ClsAttrs :=
  match pyGetattr cls inst target with
  | .ok _ => .ok (assocSet cls name (ClassAttr.argAlias target))
  | .error (.attributeError _) => .error (.runtimeError "has no attribute to alias")
  | .error e => .error e

/-- `Config.__post_init__` from `base.py`: iterate the config arguments in
declaration order and, for every value that is an `AliasSpec` marker, install
the corresponding `ArgAlias` descriptor on the class — a mutation of shared
class state that is visible to the rest of the iteration and to every later
construction. -/
def runPostInit (argNames : List String) (cls : ClsAttrs) (inst : InstDict) :
    Except PyError ClsAttrs :=
  argNames.foldlM (fun cls name =>
    match pyGetattr cls inst name with
    | .error e => .error e
    | .ok (PyVal.aliasSpec tgt) => buildAlias cls inst name tgt
    | .ok _ => .ok cls) cls

/-- Construction of a `Config` instance (`cls(**kwargs)`): the generated
dataclass `__init__` followed by `Config.__post_init__`.  Returns the updated
class attribute table together with the instance dictionary, since
construction can mutate the class. -/
def constructConfig (fields : FieldDefs) (cls : ClsAttrs) (kwargs : InstDict) :
    Except PyError (ClsAttrs × InstDict) :=
  match checkKwargs fields kwargs with
  | .error e => .error e
  | .ok _ =>
    match runInit fields cls kwargs with
    | .error e => .error e
    | .ok inst =>
      match runPostInit (fields.map Prod.fst) cls inst with
      | .error e => .error e
      | .ok cls' => .ok (cls', inst)

/-- `Config.from_dict` from `base.py`: `return cls(**config)`. -/
def Config.from_dict (fields : FieldDefs) (cls : ClsAttrs) (d : InstDict) :
    Except PyError (ClsAttrs × InstDict) :=
  constructConfig fields cls d

/-- Python `json.load` on an already-tokenised flat JSON object: the member
list is folded into a dict, a later duplicate key silently overwriting the
earlier binding (CPython's default `object_pairs_hook` behaviour).  No
duplicate-key detection is performed. -/
def jsonLoadObject (members : List (String × PyVal)) : InstDict :=
  members.foldl (fun d kv => assocSet d kv.1 kv.2) []

/-- The call `cls.from_dict(**config_dict)` appearing in `Config.from_json`:
the parsed dict is splatted into keyword arguments of `from_dict`, whose only
parameter is named `config`.  Binding therefore raises `TypeError` unless the
dict has exactly the key `config`; and in this model (flat JSON objects whose
member values are scalars) a bound `config` value is never a mapping, so
`cls(**config)` raises `TypeError` as well. -/
def fromDictStar (d : InstDict) : Except PyError (ClsAttrs × InstDict) :=
  match d with
  | [(k, _)] =>
    if k = "config" then .error (.typeError "argument after ** must be a mapping")
    else .error (.typeError k)
  | _ => .error (.typeError "keyword arguments do not match the parameters of from_dict")

/-- `Config.from_json` from `base.py` applied to the member list of a parsed
flat JSON object: `json.load` (keeping the last duplicate silently) followed
by `cls.from_dict(**config_dict)`. -/
def Config.from_json (members : List (String × PyVal)) :
    Except PyError (ClsAttrs × InstDict) :=
  fromDictStar (jsonLoadObject members)

/-- A constructed `Config` object as seen by `register_arg`, `keys` and
`as_dict`: the dataclass-declared field names (fixed by the schema), the
mutable `_arg_names` list collected in `__post_init__` and extended by
`register_arg`, and the instance dictionary. -/
structure DCInst where
  fields : List String
  argNames : List String
  dict : InstDict
deriving Repr, DecidableEq

/-- `Config.register_arg` from `base.py`: a name already in `_arg_names`
raises `ValueError` (the `DuplicateFieldError` of the spec) before anything
is mutated; otherwise the name is appended to `_arg_names` and the value is
assigned with `setattr`. -/
def Config.register_arg (cls : ClsAttrs) (c : DCInst) (name : String) (v : PyVal) :
    Except PyError DCInst :=
  if name ∈ c.argNames then .error (.valueError name)
  else
    match pySetattr cls c.dict name v with
    | .error e => .error e
    | .ok d => .ok { c with argNames := c.argNames ++ [name], dict := d }

/-- `Config.keys` from `base.py`: the names yielded by `items()`, i.e.
`_arg_names` in order (declared fields first, then registered names in
registration order). -/
def Config.keys (c : DCInst) : List String := c.argNames

/-- Recursion underlying `dataclasses.asdict`: read each dataclass-declared
field, in declaration order, pairing it with its current value. -/
def as_dictAux (cls : ClsAttrs) (d : InstDict) : List String → Except PyError InstDict
  | [] => .ok []
  | n :: rest =>
    match pyGetattr cls d n with
    | .error e => .error e
    | .ok v =>
      match as_dictAux cls d rest with
      | .error e => .error e
      | .ok out => .ok ((n, v) :: out)

/-- `Config.as_dict` from `base.py`: `dataclasses.asdict(self)`, which ranges
over the dataclass-declared fields only — names added at runtime by
`register_arg` are not dataclass fields and do not appear. -/
def Config.as_dict (cls : ClsAttrs) (c : DCInst) : Except PyError InstDict :=
  as_dictAux cls c.dict c.fields

/-- A value held by a composite config as `Config.is_valid` sees it: either a
scalar (which has no `is_valid` method) or a nested sub-config. -/
inductive CfgVal where
  | scalar (v : PyVal)
  | config (fields : List (String × CfgVal))

mutual
/-- The call `arg.is_valid()` made by `Config.is_valid` on each value of the
instance: on a scalar it raises `AttributeError` (Python ints, bools and
strings have no `is_valid` attribute); on a nested config it runs the base
`Config.is_valid`, i.e. `all(arg.is_valid() for arg in self.values())` after
the no-op default resolution. -/
def callIsValid : CfgVal → Except PyError Bool
  | .scalar _ => .error (.attributeError "is_valid")
  | .config fs => fieldsAllValid fs

/-- The generator `all(arg.is_valid() for arg in self.values())`: values are
visited in declaration order, a raised exception propagates, and a `False`
result short-circuits. -/
def fieldsAllValid : List (String × CfgVal) → Except PyError Bool
  | [] => .ok true
  | (_, v) :: rest =>
    match callIsValid v with
    | .error e => .error e
    | .ok true => fieldsAllValid rest
    | .ok false => .ok false
end

/-! Helper lemmas. -/

theorem assocLookup_assocSet_self {α : Type} (l : List (String × α)) (k : String) (v : α) :
    assocLookup (assocSet l k v) k = some v := by
  induction l with
  | nil => simp [assocSet, assocLookup]
  | cons hd tl ih =>
    obtain ⟨k', w⟩ := hd
    by_cases h : k' = k
    · subst h
      simp [assocSet, assocLookup]
    · simp [assocSet, assocLookup, h, ih]

theorem pySetattrFuel_not_alias (cls : ClsAttrs) (fuel : Nat) (inst : InstDict)
    (name : String) (v : PyVal) (h : isAliasAttr cls name = false) :
    pySetattrFuel cls (fuel + 1) inst name v = .ok (assocSet inst name v) := by
  cases hc : assocLookup cls name with
  | none => simp [pySetattrFuel, hc]
  | some a =>
    cases a with
    | plain w => simp [pySetattrFuel, hc]
    | argAlias t =>
      exfalso
      simp [isAliasAttr, hc] at h

theorem pySetattrFuel_alias (cls : ClsAttrs) (fuel : Nat) (inst : InstDict)
    (a b : String) (v : PyVal) (h : assocLookup cls a = some (ClassAttr.argAlias b)) :
    pySetattrFuel cls (fuel + 1) inst a v = pySetattrFuel cls fuel inst b v := by
  simp [pySetattrFuel, h]

theorem pyGetattrFuel_alias (cls : ClsAttrs) (inst : InstDict) (fuel : Nat)
    (a b : String) (h : assocLookup cls a = some (ClassAttr.argAlias b)) :
    pyGetattrFuel cls inst (fuel + 1) a = pyGetattrFuel cls inst fuel b := by
  simp [pyGetattrFuel, h]

theorem pyGetattrFuel_inst (cls : ClsAttrs) (inst : InstDict) (fuel : Nat)
    (name : String) (v : PyVal) (h : isAliasAttr cls name = false)
    (h2 : assocLookup inst name = some v) :
    pyGetattrFuel cls inst (fuel + 1) name = .ok v := by
  cases hc : assocLookup cls name with
  | none => simp [pyGetattrFuel, hc, h2]
  | some a =>
    cases a with
    | plain w => simp [pyGetattrFuel, hc, h2]
    | argAlias t =>
      exfalso
      simp [isAliasAttr, hc] at h

theorem pySetattr_not_alias (cls : ClsAttrs) (inst : InstDict) (name : String)
    (v : PyVal) (h : isAliasAttr cls name = false) :
    pySetattr cls inst name v = .ok (assocSet inst name v) := by
  have hf : attrFuel = 63 + 1 := rfl
  rw [pySetattr, hf]
  exact pySetattrFuel_not_alias cls 63 inst name v h

theorem pyGetattr_inst (cls : ClsAttrs) (inst : InstDict) (name : String)
    (v : PyVal) (h : isAliasAttr cls name = false)
    (h2 : assocLookup inst name = some v) :
    pyGetattr cls inst name = .ok v := by
  have hf : attrFuel = 63 + 1 := rfl
  rw [pyGetattr, hf]
  exact pyGetattrFuel_inst cls inst 63 name v h h2

/-! Claim theorems. -/

/-- C1: for every `BatchConfig` and every world size `w ≥ 1` (with `w = 1`
when no distributed context is active), `_resolve` infers the missing batch
fields by the stated case analysis: `batch` and `mb` set without `gas` gives
`gas = floor(batch / mb / w)`; `batch` and `gas` set without `mb` gives
`mb = floor(batch / w / gas)`; `mb` and `gas` set without `batch` gives
`batch = mb * gas * w`; only `batch` set gives `gas = 1` and
`mb = floor(batch / w)`; only `mb` set gives `batch = mb * w` and `gas = 1`;
and with both `batch` and `mb` unset no field is inferred.  The divisor
hypotheses `m ≠ 0` and `g ≠ 0` record that the divisions the claim writes
down are defined (Python raises `ZeroDivisionError` otherwise). -/
theorem batch_resolve_cases (c : BatchConfig) (w : Int) (hw : 1 ≤ w) :
    (∀ b m, c.train_batch_size = some b → c.micro_batch_size = some m →
      c.gradient_accumulation_steps = none → m ≠ 0 →
      BatchConfig._resolve c w =
        .ok { c with world_size := w,
                     gradient_accumulation_steps := some ((b.fdiv m).fdiv w) }) ∧
    (∀ b g, c.train_batch_size = some b → c.micro_batch_size = none →
      c.gradient_accumulation_steps = some g → g ≠ 0 →
      BatchConfig._resolve c w =
        .ok { c with world_size := w,
                     micro_batch_size := some ((b.fdiv w).fdiv g) }) ∧
    (∀ m g, c.train_batch_size = none → c.micro_batch_size = some m →
      c.gradient_accumulation_steps = some g →
      BatchConfig._resolve c w =
        .ok { c with world_size := w, train_batch_size := some (m * g * w) }) ∧
    (∀ b, c.train_batch_size = some b → c.micro_batch_size = none →
      c.gradient_accumulation_steps = none →
      BatchConfig._resolve c w =
        .ok { c with world_size := w, micro_batch_size := some (b.fdiv w),
                     gradient_accumulation_steps := some 1 }) ∧
    (∀ m, c.train_batch_size = none → c.micro_batch_size = some m →
      c.gradient_accumulation_steps = none →
      BatchConfig._resolve c w =
        .ok { c with world_size := w, train_batch_size := some (m * w),
                     gradient_accumulation_steps := some 1 }) ∧
    (c.train_batch_size = none → c.micro_batch_size = none →
      BatchConfig._resolve c w = .ok { c with world_size := w }) := by
  have hw0 : ¬ (w = 0) := by omega
  obtain ⟨tb, mb, gas, ws⟩ := c
  refine ⟨?_, ?_, ?_, ?_, ?_, ?_⟩
  · intro b m h1 h2 h3 hm
    subst h1; subst h2; subst h3
    simp [BatchConfig._resolve, truthy, pyFloorDiv, hm, hw0]
  · intro b g h1 h2 h3 hg
    subst h1; subst h2; subst h3
    simp [BatchConfig._resolve, truthy, pyFloorDiv, hg, hw0]
  · intro m g h1 h2 h3
    subst h1; subst h2; subst h3
    simp [BatchConfig._resolve, truthy]
  · intro b h1 h2 h3
    subst h1; subst h2; subst h3
    simp [BatchConfig._resolve, truthy, pyFloorDiv, hw0]
  · intro m h1 h2 h3
    subst h1; subst h2; subst h3
    simp [BatchConfig._resolve, truthy]
  · intro h1 h2
    subst h1; subst h2
    simp [BatchConfig._resolve, truthy]

/-- Witness for C1 at a concrete input: `batch = 4`, `mb = 2`, `gas` unset,
`w = 1` resolves `gas` to `floor(4 / 2 / 1) = 2`. -/
theorem batch_resolve_cases_witness :
    BatchConfig._resolve ⟨some 4, some 2, none, 1⟩ 1 =
      .ok ⟨some 4, some 2, some 2, 1⟩ :=
  (batch_resolve_cases ⟨some 4, some 2, none, 1⟩ 1 (by decide)).1 4 2 rfl rfl rfl
    (by decide)

/-- Counterexample to C2 as stated: with `train_batch_size = 4`,
`micro_batch_size = 2` and `gradient_accumulation_steps = 0` all three fields
are set (not `None`), yet `_resolve` overwrites `gradient_accumulation_steps`
with `2`, because the code tests Python truthiness (`all([batch, mb, gas])`)
and `0` is falsy. -/
theorem batch_resolve_overwrites_falsy_gas :
    BatchConfig._resolve ⟨some 4, some 2, some 0, 1⟩ 1 =
      .ok ⟨some 4, some 2, some 2, 1⟩ ∧ some (2 : Int) ≠ some (0 : Int) :=
  ⟨rfl, by decide⟩

/-- C2 amended: when all three batch fields are set to truthy values (not
`None` and nonzero), `_resolve` leaves all three unchanged — even if they are
mutually inconsistent — and only records the world size. -/
theorem batch_resolve_all_truthy_unchanged (c : BatchConfig) (w : Int)
    (h1 : truthy c.train_batch_size = true)
    (h2 : truthy c.micro_batch_size = true)
    (h3 : truthy c.gradient_accumulation_steps = true) :
    BatchConfig._resolve c w = .ok { c with world_size := w } := by
  simp [BatchConfig._resolve, h1, h2, h3]

/-- Witness for the amended C2 at a concrete, mutually inconsistent input:
`batch = 4`, `mb = 2`, `gas = 3`, `w = 5` is left unchanged. -/
theorem batch_resolve_all_truthy_unchanged_witness :
    BatchConfig._resolve ⟨some 4, some 2, some 3, 1⟩ 5 =
      .ok ⟨some 4, some 2, some 3, 5⟩ :=
  batch_resolve_all_truthy_unchanged ⟨some 4, some 2, some 3, 1⟩ 5 rfl rfl rfl

theorem checkResolved_spec (c : BatchConfig) :
    ((∃ msg, checkResolved c = .error (.configError msg)) ↔ batchInvalid c) ∧
    (¬ batchInvalid c → checkResolved c = .ok true) := by
  obtain ⟨tb, mb, gas, ws⟩ := c
  cases tb with
  | none => simp [checkResolved, batchInvalid]
  | some b =>
    cases mb with
    | none =>
      by_cases hb : b ≤ 0 <;> simp [checkResolved, batchInvalid, hb]
    | some m =>
      cases gas with
      | none =>
        by_cases hb : b ≤ 0
        · simp [checkResolved, batchInvalid, hb]
        · by_cases hm : m ≤ 0 <;> simp [checkResolved, batchInvalid, hb, hm]
      | some g =>
        by_cases hb : b ≤ 0
        · simp [checkResolved, batchInvalid, hb]
        · by_cases hm : m ≤ 0
          · simp [checkResolved, batchInvalid, hb, hm]
          · by_cases hg : g ≤ 0
            · simp [checkResolved, batchInvalid, hb, hm, hg]
            · by_cases he : b = m * g * ws
              · subst he
                simp [checkResolved, batchInvalid, hb, hm, hg]
              · simp [checkResolved, batchInvalid, hb, hm, hg, he]

/-- C3: `BatchConfig.is_valid` first triggers resolution; when resolution
completes with result `c'`, it raises `ConfigError` exactly when some batch
field of `c'` is `None` or non-positive or the fields violate
`train_batch_size = micro_batch_size * gradient_accumulation_steps *
world_size`, and returns `True` otherwise.  (`micro_batch_size` is read
through its alias `train_micro_batch_size_per_gpu`, which forwards to the
same field.) -/
theorem batch_is_valid_spec (c : BatchConfig) (w : Int) (c' : BatchConfig)
    (h : BatchConfig._resolve c w = .ok c') :
    ((∃ msg, BatchConfig.is_valid c w = .error (.configError msg)) ↔ batchInvalid c') ∧
    (¬ batchInvalid c' → BatchConfig.is_valid c w = .ok true) := by
  have hs := checkResolved_spec c'
  simp only [BatchConfig.is_valid, h]
  exact hs

/-- Witness for C3 at the concrete input singled out by the claim:
`train_batch_size = 0` (other fields unset, `w = 1`) raises `ConfigError`. -/
theorem batch_is_valid_spec_witness :
    ∃ msg, BatchConfig.is_valid ⟨some 0, none, none, 1⟩ 1 =
      .error (.configError msg) :=
  (batch_is_valid_spec ⟨some 0, none, none, 1⟩ 1 ⟨some 0, some 0, some 1, 1⟩ rfl).1.mpr
    (Or.inl (le_refl 0))

/-- C4: alias round trip.  For an instance of a config class whose attribute
table carries an `ArgAlias` descriptor `a -> b` (with `b` itself not an
alias), writing `a` writes through to `b` and reading back `b` observes the
written value, and writing `b` is observed when reading back through `a`:
both names always observe the same value, by forwarding rather than
copying. -/
theorem alias_roundtrip (cls : ClsAttrs) (inst : InstDict) (a b : String)
    (v v2 : PyVal) (hA : assocLookup cls a = some (ClassAttr.argAlias b))
    (hB : isAliasAttr cls b = false) :
    (pySetattr cls inst a v = .ok (assocSet inst b v) ∧
      pyGetattr cls (assocSet inst b v) b = .ok v) ∧
    (pySetattr cls inst b v2 = .ok (assocSet inst b v2) ∧
      pyGetattr cls (assocSet inst b v2) a = .ok v2) := by
  have hf : attrFuel = 63 + 1 := rfl
  have hf2 : (63 : Nat) = 62 + 1 := rfl
  refine ⟨⟨?_, ?_⟩, ⟨?_, ?_⟩⟩
  · rw [pySetattr, hf, pySetattrFuel_alias cls 63 inst a b v hA, hf2]
    exact pySetattrFuel_not_alias cls 62 inst b v hB
  · exact pyGetattr_inst cls (assocSet inst b v) b v hB
      (assocLookup_assocSet_self inst b v)
  · exact pySetattr_not_alias cls inst b v2 hB
  · rw [pyGetattr, hf, pyGetattrFuel_alias cls (assocSet inst b v2) 63 a b hA, hf2]
    exact pyGetattrFuel_inst cls (assocSet inst b v2) 62 b v2 hB
      (assocLookup_assocSet_self inst b v2)

/-- Witness for C4 at a concrete instance: the class of `AliasedConfig` after
the descriptor `age2 -> age` has been installed, with `v = 5` and
`v2 = 7`. -/
theorem alias_roundtrip_witness :
    (pySetattr [("age2", ClassAttr.argAlias "age"), ("age", ClassAttr.plain (PyVal.int 1))]
        [] "age2" (PyVal.int 5) = .ok [("age", PyVal.int 5)] ∧
      pyGetattr [("age2", ClassAttr.argAlias "age"), ("age", ClassAttr.plain (PyVal.int 1))]
        [("age", PyVal.int 5)] "age" = .ok (PyVal.int 5)) ∧
    (pySetattr [("age2", ClassAttr.argAlias "age"), ("age", ClassAttr.plain (PyVal.int 1))]
        [] "age" (PyVal.int 7) = .ok [("age", PyVal.int 7)] ∧
      pyGetattr [("age2", ClassAttr.argAlias "age"), ("age", ClassAttr.plain (PyVal.int 1))]
        [("age", PyVal.int 7)] "age2" = .ok (PyVal.int 7)) :=
  alias_roundtrip _ [] "age2" "age" (PyVal.int 5) (PyVal.int 7) rfl rfl

/-- C8: for a name not already among the instance's arg names (and not
intercepted by a class descriptor), `register_arg` appends the name and
stores the value, a subsequent `get` returns that value, and a second
`register_arg` of the same name fails with `ValueError` (the spec's
`DuplicateFieldError`) without producing any mutated instance. -/
theorem register_arg_spec (cls : ClsAttrs) (c : DCInst) (name : String)
    (v v2 : PyVal) (hN : name ∉ c.argNames) (hD : isAliasAttr cls name = false) :
    Config.register_arg cls c name v =
      .ok { c with argNames := c.argNames ++ [name], dict := assocSet c.dict name v } ∧
    pyGetattr cls (assocSet c.dict name v) name = .ok v ∧
    Config.register_arg cls
        { c with argNames := c.argNames ++ [name], dict := assocSet c.dict name v }
        name v2 = .error (.valueError name) := by
  refine ⟨?_, ?_, ?_⟩
  · simp [Config.register_arg, hN, pySetattr_not_alias cls c.dict name v hD]
  · exact pyGetattr_inst cls (assocSet c.dict name v) name v hD
      (assocLookup_assocSet_self c.dict name v)
  · simp [Config.register_arg]

/-- Witness for C8 at a concrete instance shaped like
`MyConfig(verbose=False)` from the unit tests, registering `level = 11` and
then attempting to register `level` again. -/
theorem register_arg_spec_witness :
    Config.register_arg [] ⟨["verbose", "name"], ["verbose", "name"],
        [("verbose", PyVal.bool false), ("name", PyVal.str "Beluga")]⟩
      "level" (PyVal.int 11) =
      .ok ⟨["verbose", "name"], ["verbose", "name", "level"],
        [("verbose", PyVal.bool false), ("name", PyVal.str "Beluga"),
          ("level", PyVal.int 11)]⟩ ∧
    pyGetattr []
        [("verbose", PyVal.bool false), ("name", PyVal.str "Beluga"),
          ("level", PyVal.int 11)] "level" = .ok (PyVal.int 11) ∧
    Config.register_arg [] ⟨["verbose", "name"], ["verbose", "name", "level"],
        [("verbose", PyVal.bool false), ("name", PyVal.str "Beluga"),
          ("level", PyVal.int 11)]⟩
      "level" (PyVal.int 12) = .error (.valueError "level") :=
  register_arg_spec [] ⟨["verbose", "name"], ["verbose", "name"],
      [("verbose", PyVal.bool false), ("name", PyVal.str "Beluga")]⟩
    "level" (PyVal.int 11) (PyVal.int 12) (by decide) rfl

theorem as_dictAux_fst (cls : ClsAttrs) (d : InstDict) (names : List String)
    (out : InstDict) (h : as_dictAux cls d names = .ok out) :
    out.map Prod.fst = names := by
  induction names generalizing out with
  | nil =>
    simp [as_dictAux] at h
    simp [← h]
  | cons n rest ih =>
    rw [as_dictAux] at h
    cases hg : pyGetattr cls d n with
    | error e => rw [hg] at h; exact absurd h (by simp)
    | ok v =>
      rw [hg] at h
      cases hr : as_dictAux cls d rest with
      | error e => rw [hr] at h; exact absurd h (by simp)
      | ok out' =>
        rw [hr] at h
        cases h
        simp [ih out' hr]

/-- C10: `as_dict` returns exactly the dataclass-declared fields.  Starting
from an instance whose `_arg_names` are the declared fields followed by the
previously registered names, registering a fresh name makes it appear in
`keys` after all declared fields, in registration order, while the mapping
returned by `as_dict` still ranges over exactly the declared fields, so the
registered name is absent from it. -/
theorem as_dict_excludes_registered (cls : ClsAttrs) (c : DCInst)
    (name : String) (v : PyVal) (regs : List String)
    (hArgs : c.argNames = c.fields ++ regs) (hN : name ∉ c.argNames)
    (hD : isAliasAttr cls name = false) :
    Config.register_arg cls c name v =
      .ok { c with argNames := c.argNames ++ [name], dict := assocSet c.dict name v } ∧
    Config.keys { c with argNames := c.argNames ++ [name],
                         dict := assocSet c.dict name v } =
      c.fields ++ (regs ++ [name]) ∧
    (∀ out, Config.as_dict cls { c with argNames := c.argNames ++ [name],
                                        dict := assocSet c.dict name v } = .ok out →
      out.map Prod.fst = c.fields ∧ name ∉ out.map Prod.fst) := by
  have hNF : name ∉ c.fields := by
    intro hmem
    exact hN (hArgs ▸ List.mem_append_left regs hmem)
  refine ⟨?_, ?_, ?_⟩
  · simp [Config.register_arg, hN, pySetattr_not_alias cls c.dict name v hD]
  · simp [Config.keys, hArgs]
  · intro out hout
    have hfst := as_dictAux_fst cls (assocSet c.dict name v) c.fields out hout
    exact ⟨hfst, hfst ▸ hNF⟩

/-- Witness for C10 at a concrete instance shaped like
`MyConfig(verbose=False)`, registering `level = 11`: `keys` ends with
`level`, `as_dict` still has exactly `verbose` and `name`. -/
theorem as_dict_excludes_registered_witness :
    Config.register_arg [] ⟨["verbose", "name"], ["verbose", "name"],
        [("verbose", PyVal.bool false), ("name", PyVal.str "Beluga")]⟩
      "level" (PyVal.int 11) =
      .ok ⟨["verbose", "name"], ["verbose", "name", "level"],
        [("verbose", PyVal.bool false), ("name", PyVal.str "Beluga"),
          ("level", PyVal.int 11)]⟩ ∧
    Config.keys ⟨["verbose", "name"], ["verbose", "name", "level"],
        [("verbose", PyVal.bool false), ("name", PyVal.str "Beluga"),
          ("level", PyVal.int 11)]⟩ = ["verbose", "name", "level"] ∧
    (∀ out, Config.as_dict [] ⟨["verbose", "name"], ["verbose", "name", "level"],
        [("verbose", PyVal.bool false), ("name", PyVal.str "Beluga"),
          ("level", PyVal.int 11)]⟩ = .ok out →
      out.map Prod.fst = ["verbose", "name"] ∧ "level" ∉ out.map Prod.fst) :=
  as_dict_excludes_registered [] ⟨["verbose", "name"], ["verbose", "name"],
      [("verbose", PyVal.bool false), ("name", PyVal.str "Beluga")]⟩
    "level" (PyVal.int 11) [] rfl (by decide) rfl

/-- C5 fails on the code: the base `Config.is_valid` calls `arg.is_valid()`
on every value, with no sub-config guard, so an instance with a scalar field
(here the shape of `FP16Config`, whose first field is the boolean `enabled`)
raises `AttributeError` instead of validating — contradicting both the claim
and the method's docstring.  By contrast a composite all of whose fields are
sub-configs does recurse and succeed, confirming that only the missing scalar
guard is at fault. -/
theorem base_is_valid_scalar_attribute_error :
    callIsValid (CfgVal.config
        [("enabled", CfgVal.scalar (PyVal.bool false))]) =
      .error (.attributeError "is_valid") ∧
    callIsValid (CfgVal.config [("batch", CfgVal.config [])]) = .ok true :=
  ⟨rfl, rfl⟩

/-- C6 fails on the code: `Config.from_json` parses with plain `json.load`,
which silently keeps the last occurrence of a duplicate key; no
duplicate-key/parse error is raised (the `TypeError` produced afterwards is
the unrelated `from_dict(**config_dict)` keyword-splat slip, not a
duplicate-key error). -/
theorem from_json_duplicate_key_kept_last :
    jsonLoadObject
        [("train_batch_size", PyVal.int 24), ("train_batch_size", PyVal.int 48)] =
      [("train_batch_size", PyVal.int 48)] ∧
    Config.from_json
        [("train_batch_size", PyVal.int 24), ("train_batch_size", PyVal.int 48)] =
      .error (.typeError "train_batch_size") :=
  ⟨rfl, rfl⟩

/-- The dataclass fields of `MyConfig` from the unit tests: a required
`verbose` and `name` defaulting to `Beluga`. -/
def myConfigFields : FieldDefs :=
  [("verbose", none), ("name", some (PyVal.str "Beluga"))]

/-- C7 fails on the code: on a file parsing to the mapping
`{verbose: true}`, whose single key is a declared field, `from_dict`
constructs the instance, but `from_json` raises `TypeError`, because it calls
`cls.from_dict(**config_dict)` — splatting the parsed dict into keyword
arguments of `from_dict`, whose only parameter is `config` — instead of
`cls.from_dict(config_dict)`. -/
theorem from_json_not_from_dict :
    Config.from_dict myConfigFields (initialCls myConfigFields)
        [("verbose", PyVal.bool true)] =
      .ok (initialCls myConfigFields,
        [("verbose", PyVal.bool true), ("name", PyVal.str "Beluga")]) ∧
    Config.from_json [("verbose", PyVal.bool true)] = .error (.typeError "verbose") :=
  ⟨rfl, rfl⟩

/-- The dataclass fields of `AliasedConfig` from the unit tests:
`age: int = 1`, `age2 = alias('age')`, `name: str = 'tygra'`. -/
def aliasedFields : FieldDefs :=
  [("age", some (PyVal.int 1)), ("age2", some (PyVal.aliasSpec "age")),
   ("name", some (PyVal.str "tygra"))]

/-- The class attribute table of `AliasedConfig` as the class body leaves
it: every default, including the `AliasSpec` marker, is a plain class
attribute. -/
def aliasedCls0 : ClsAttrs := initialCls aliasedFields

/-- The class attribute table of `AliasedConfig` after the first
construction: `__post_init__` has replaced the `AliasSpec` marker with an
`ArgAlias` data descriptor — shared class state mutated by constructing an
instance. -/
def aliasedCls1 : ClsAttrs :=
  [("age", ClassAttr.plain (PyVal.int 1)), ("age2", ClassAttr.argAlias "age"),
   ("name", ClassAttr.plain (PyVal.str "tygra"))]

/-- The instance dictionary produced by the first construction of
`AliasedConfig(age=1)`. -/
def aliasedInst1 : InstDict :=
  [("age", PyVal.int 1), ("age2", PyVal.aliasSpec "age"),
   ("name", PyVal.str "tygra")]

/-- C9 fails on the code: constructing `AliasedConfig(age=1)` once succeeds
(with `age = 1`) but mutates the shared class, installing the `age2 -> age`
descriptor; constructing it a second time with the identical arguments then
assigns the `AliasSpec` default of `age2` through that descriptor, clobbering
`age` with the marker object, whereupon `__post_init__` installs a self-alias
`age -> age` and the construction dies in infinite recursion
(`RecursionError`) — so repeated construction with identical arguments is not
repeatable and does mutate the schema. -/
theorem construct_mutates_class_and_is_not_repeatable :
    constructConfig aliasedFields aliasedCls0 [("age", PyVal.int 1)] =
      .ok (aliasedCls1, aliasedInst1) ∧
    pyGetattr aliasedCls1 aliasedInst1 "age" = .ok (PyVal.int 1) ∧
    aliasedCls1 ≠ aliasedCls0 ∧
    constructConfig aliasedFields aliasedCls1 [("age", PyVal.int 1)] =
      .error .recursionError :=
  ⟨rfl, rfl, by decide, rfl⟩

end DSConfig
